import Mathlib

set_option maxRecDepth 10000

/-!
# Verification of the IGT EDID encoder (`lib/igt_edid.c`)

Shallow embedding of the EDID construction routines of
`lib/igt_edid.c` and proofs of the specified properties.

Conventions of the embedding:
* C `uint8_t` stores are modelled as `Nat` values reduced `% 256` where the
  stored expression can exceed a byte; quantities that are bytes by
  construction are left unreduced.
* C `int` intermediates that can go negative are modelled as `Int` and
  converted back with `Int.toNat` after the masking step, which is total on
  the masked (hence non-negative) value.
* A bitwise mask-and-shift `(x & M) >> k` with a contiguous mask `M` is
  written with `%` and `/` by the corresponding powers of two, and a bitwise
  `|` of operands occupying disjoint bit ranges is written `+`; these agree
  with the C operators on two's-complement values.
* The struct layout (field names and widths) comes from `igt_edid.h`, which
  declares the types used by `lib/igt_edid.c`.
-/

/-- The fixed 8-byte EDID header magic, `edid_header` in the source. -/
def edid_header : List Nat :=
  [0x00, 0xff, 0xff, 0xff, 0xff, 0xff, 0xff, 0x00]

/-- The fixed 7-byte monitor-range padding, `monitor_range_padding`. -/
def monitor_range_padding : List Nat :=
  [0x0a, 0x20, 0x20, 0x20, 0x20, 0x20, 0x20]

/-- Modelled from the spec: `struct std_timing` (declared in `igt_edid.h`,
not under `src/`) is a 2-byte slot: a horizontal-size byte and a packed
aspect/refresh byte. -/
structure std_timing where
  hsize : Nat
  vfreq_aspect : Nat
deriving DecidableEq, Repr

/-- Modelled from the spec: the 2-bit aspect codes of
`enum std_timing_aspect` (declared in `igt_edid.h`, not under `src/`); the
spec only fixes that the aspect is a 2-bit field, so aspect codes are
modelled as the `Nat` values `0..3`, with 4:3 and 16:9 given the codes used
below in `edid_init`. -/
def STD_TIMING_4_3 : Nat := 1

/-- Modelled from the spec: the 2-bit aspect code for 16:9. -/
def STD_TIMING_16_9 : Nat := 3

/-- `std_timing_set(st, hsize, vfreq, aspect)`:
`st->hsize = hsize / 8 - 31; st->vfreq_aspect = aspect << 6 | (vfreq - 60);`.
The C function asserts `256 <= hsize && hsize <= 2288` (a fatal caller
contract, §7 of the spec); that contract is carried as a hypothesis of the
theorems below.  Both stores are `uint8_t`, hence the `% 256`.  `vfreq - 60`
is C `int` subtraction; all callers satisfy `vfreq >= 60`, where it agrees
with the `Nat` subtraction used here. -/
def std_timing_set (hsize vfreq aspect : Nat) : std_timing :=
  { hsize := (hsize / 8 - 31) % 256
    vfreq_aspect := (aspect <<< 6 ||| (vfreq - 60)) % 256 }

/-- `std_timing_unset(st)`: `memset(st, 0x01, sizeof(struct std_timing))`,
filling both bytes of the slot with `0x01`. -/
def std_timing_unset : std_timing :=
  { hsize := 0x01, vfreq_aspect := 0x01 }

/-- `edid_update_checksum(edid)`: the record is read as raw bytes
(`(const uint8_t *) edid`); the first `sizeof(struct edid) - 1 = 127` bytes
are summed in a `uint8_t` accumulator (wraparound at each step) and the
final byte — `edid->checksum`, at offset 127 per the 128-byte layout — is
set to the `uint8_t` truncation of `256 - sum`.  Modelled from the spec for
the layout constants: the record is exactly 128 bytes with the checksum at
offset 127 (`struct edid` is declared in `igt_edid.h`, not under `src/`). -/
def edid_update_checksum (buf : List Nat) : List Nat :=
  let sum := (buf.take 127).foldl (fun s b => (s + b) % 256) 0
  buf.set 127 ((256 - sum) % 256)

/-- The fields of `drmModeModeInfo` (libdrm's `xf86drmMode.h`, an external
interface) that `lib/igt_edid.c` reads.  All are unsigned in libdrm
(`uint32_t clock/vrefresh/flags`, `uint16_t` for the timing fields). -/
structure drmModeModeInfo where
  clock : Nat
  hdisplay : Nat
  hsync_start : Nat
  hsync_end : Nat
  htotal : Nat
  vdisplay : Nat
  vsync_start : Nat
  vsync_end : Nat
  vtotal : Nat
  vrefresh : Nat
  flags : Nat
deriving DecidableEq, Repr

/-- `DRM_MODE_FLAG_PHSYNC = (1 << 0)` (libdrm, external interface). -/
def DRM_MODE_FLAG_PHSYNC : Nat := 1

/-- `DRM_MODE_FLAG_PVSYNC = (1 << 2)` (libdrm, external interface). -/
def DRM_MODE_FLAG_PVSYNC : Nat := 4

/-- Modelled from the spec: the misc-byte flag for positive horizontal sync
polarity (`EDID_PT_HSYNC_POSITIVE` of `igt_edid.h`, not under `src/`); the
spec fixes only that the misc byte records the two polarity flags, so two
distinct bits are used. -/
def EDID_PT_HSYNC_POSITIVE : Nat := 2

/-- Modelled from the spec: the misc-byte flag for positive vertical sync
polarity (`EDID_PT_VSYNC_POSITIVE` of `igt_edid.h`, not under `src/`). -/
def EDID_PT_VSYNC_POSITIVE : Nat := 4

/-- Modelled from the spec: `struct detailed_pixel_timing` (declared in
`igt_edid.h`, not under `src/`), the byte fields of an 18-byte pixel-timing
descriptor that `detailed_timing_set_mode` writes. -/
structure detailed_pixel_timing where
  hactive_lo : Nat
  hblank_lo : Nat
  hactive_hblank_hi : Nat
  vactive_lo : Nat
  vblank_lo : Nat
  vactive_vblank_hi : Nat
  hsync_offset_lo : Nat
  hsync_pulse_width_lo : Nat
  vsync_offset_pulse_width_lo : Nat
  hsync_vsync_offset_pulse_width_hi : Nat
  width_mm_lo : Nat
  height_mm_lo : Nat
  width_height_mm_hi : Nat
  misc : Nat
deriving DecidableEq, Repr

/-- Modelled from the spec: the tag byte values of
`enum detailed_non_pixel_type` (declared in `igt_edid.h`, not under
`src/`): a non-pixel descriptor is further tagged as monitor-range, one of
the three string subtypes, or dummy. -/
inductive detailed_non_pixel_type where
  | dummy
  | monitor_range
  | monitor_serial
  | monitor_string
  | monitor_name
deriving DecidableEq, Repr

/-- Modelled from the spec: `struct detailed_data_monitor_range` (declared
in `igt_edid.h`, not under `src/`): single-byte range limits plus the
7-byte secondary-timing-formula padding. -/
structure detailed_data_monitor_range where
  min_vfreq : Nat
  max_vfreq : Nat
  min_hfreq_khz : Nat
  max_hfreq_khz : Nat
  pixel_clock_mhz : Nat
  flags : Nat
  pad : List Nat
deriving DecidableEq, Repr

/-- Modelled from the spec: `struct detailed_data_string` (declared in
`igt_edid.h`, not under `src/`): a 13-byte text payload. -/
structure detailed_data_string where
  str : List Nat
deriving DecidableEq, Repr

/-- The payload of a non-pixel descriptor (the union inside
`struct detailed_non_pixel`), modelled as a tagged variant per §9 of the
spec. -/
inductive detailed_non_pixel_data where
  | range (mr : detailed_data_monitor_range)
  | string (ds : detailed_data_string)
deriving DecidableEq, Repr

/-- Modelled from the spec: `struct detailed_non_pixel` (declared in
`igt_edid.h`, not under `src/`): a type tag and the union payload. -/
structure detailed_non_pixel where
  type : detailed_non_pixel_type
  data : detailed_non_pixel_data
deriving DecidableEq, Repr

/-- The union inside `struct detailed_timing`: either a pixel timing or a
non-pixel descriptor, modelled as a tagged variant per §9 of the spec. -/
inductive detailed_timing_data where
  | pixel_data (pt : detailed_pixel_timing)
  | other_data (np : detailed_non_pixel)
deriving DecidableEq, Repr

/-- Modelled from the spec: `struct detailed_timing` (declared in
`igt_edid.h`, not under `src/`): the 2-byte pixel-clock field — the tag
distinguishing pixel from non-pixel descriptors — followed by the 16-byte
payload. -/
structure detailed_timing where
  pixel_clock : Nat × Nat
  data : detailed_timing_data
deriving DecidableEq, Repr

/-- An 18-byte descriptor of all-zero bytes, the state `memset(edid, 0, _)`
leaves the four `detailed_timings` slots in. -/
def detailed_timing_zero : detailed_timing :=
  { pixel_clock := (0, 0)
    data := .pixel_data
      { hactive_lo := 0, hblank_lo := 0, hactive_hblank_hi := 0
        vactive_lo := 0, vblank_lo := 0, vactive_vblank_hi := 0
        hsync_offset_lo := 0, hsync_pulse_width_lo := 0
        vsync_offset_pulse_width_lo := 0
        hsync_vsync_offset_pulse_width_hi := 0
        width_mm_lo := 0, height_mm_lo := 0, width_height_mm_hi := 0
        misc := 0 } }

/-- `detailed_timing_set_mode(dt, mode, width_mm, height_mm)`.  The eight
derived quantities are C `int` locals, modelled as `Int` since the
subtractions can go negative on malformed modes; the byte stores then mask
with `%`/`/` as described in the file header.  The C asserts
(`hactive <= 0xFFF`, …) are fatal caller contracts (§7) and are not
modelled as guards.
`pixel_clock[0] = (clock / 10) & 0x00FF`,
`pixel_clock[1] = ((clock / 10) & 0xFF00) >> 8`. -/
def detailed_timing_set_mode (mode : drmModeModeInfo)
    (width_mm height_mm : Nat) : detailed_timing :=
  let hactive : Int := mode.hdisplay
  let hsync_offset : Int := (mode.hsync_start : Int) - mode.hdisplay
  let hsync_pulse_width : Int := (mode.hsync_end : Int) - mode.hsync_start
  let hblank : Int := (mode.htotal : Int) - mode.hdisplay
  let vactive : Int := mode.vdisplay
  let vsync_offset : Int := (mode.vsync_start : Int) - mode.vdisplay
  let vsync_pulse_width : Int := (mode.vsync_end : Int) - mode.vsync_start
  let vblank : Int := (mode.vtotal : Int) - mode.vdisplay
  { pixel_clock := ((mode.clock / 10) % 256, (mode.clock / 10) % 65536 / 256)
    data := .pixel_data
      { hactive_lo := (hactive % 256).toNat
        hblank_lo := (hblank % 256).toNat
        hactive_hblank_hi :=
          (hactive % 4096 / 256 * 16 + hblank % 4096 / 256).toNat
        vactive_lo := (vactive % 256).toNat
        vblank_lo := (vblank % 256).toNat
        vactive_vblank_hi :=
          (vactive % 4096 / 256 * 16 + vblank % 4096 / 256).toNat
        hsync_offset_lo := (hsync_offset % 256).toNat
        hsync_pulse_width_lo := (hsync_pulse_width % 256).toNat
        vsync_offset_pulse_width_lo :=
          (vsync_offset % 16 * 16 + vsync_pulse_width % 16).toNat
        hsync_vsync_offset_pulse_width_hi :=
          (hsync_offset % 1024 / 256 * 64 + hsync_pulse_width % 1024 / 256 * 16
            + vsync_offset % 64 / 16 * 4 + vsync_pulse_width % 64 / 16).toNat
        width_mm_lo := width_mm % 256
        height_mm_lo := height_mm % 256
        width_height_mm_hi :=
          width_mm % 4096 / 256 * 16 + height_mm % 4096 / 256
        misc :=
          (if mode.flags &&& DRM_MODE_FLAG_PHSYNC ≠ 0
           then EDID_PT_HSYNC_POSITIVE else 0)
          + (if mode.flags &&& DRM_MODE_FLAG_PVSYNC ≠ 0
             then EDID_PT_VSYNC_POSITIVE else 0) } }

/-- `detailed_timing_set_monitor_range_mode(dt, mode)`.  The range fields
are `uint8_t`; the stored expressions mix `uint32_t` operands with the
literal `±1`, so a subtraction that underflows wraps — `x - 1` stored to a
byte equals `(x + 255) % 256` for every `Nat` `x`, which is the form used
here.  `clock / htotal` requires `htotal ≠ 0` in C (division by zero);
theorems about this function carry that hypothesis. -/
def detailed_timing_set_monitor_range_mode (mode : drmModeModeInfo) :
    detailed_timing :=
  { pixel_clock := (0, 0)
    data := .other_data
      { type := .monitor_range
        data := .range
          { min_vfreq := (mode.vrefresh + 255) % 256
            max_vfreq := (mode.vrefresh + 1) % 256
            min_hfreq_khz := (mode.clock / mode.htotal + 255) % 256
            max_hfreq_khz := (mode.clock / mode.htotal + 1) % 256
            pixel_clock_mhz := (mode.clock / 10000 + 1) % 256
            flags := 0
            pad := monitor_range_padding } } }

/-- `detailed_timing_set_string(dt, type, str)`.  The `switch` admits only
the three string subtypes and hits `assert(0)` otherwise; the fatal path is
modelled as `none`.  The C string is modelled as its list of bytes (up to
the NUL terminator), so `strlen(str) = str.length`.
`strncpy(ds->str, str, 13)` copies `min(str.length, 13)` bytes and
zero-fills the remainder of the 13-byte payload; then, when
`str.length < 13`, the byte at index `str.length` is overwritten with
`'\n' = 10`. -/
def detailed_timing_set_string (type : detailed_non_pixel_type)
    (str : List Nat) : Option detailed_timing :=
  match type with
  | .monitor_name | .monitor_string | .monitor_serial =>
    let copied := str.take 13 ++ List.replicate (13 - str.length) 0
    let len := str.length
    some { pixel_clock := (0, 0)
           data := .other_data
             { type := type
               data := .string
                 { str := if len < 13 then copied.set len 10 else copied } } }
  | _ => none

/-- Extract the monitor-range payload of a descriptor, if it is one. -/
def detailed_timing.range_of : detailed_timing → Option detailed_data_monitor_range
  | { data := .other_data { data := .range mr, .. }, .. } => some mr
  | _ => none

/-- Extract the string payload of a descriptor, if it is one. -/
def detailed_timing.string_of : detailed_timing → Option (List Nat)
  | { data := .other_data { data := .string ds, .. }, .. } => some ds.str
  | _ => none

/-- Modelled from the spec: `struct est_timings` (declared in `igt_edid.h`,
not under `src/`), the 3-byte established-timings bitmap; `lib/igt_edid.c`
writes the fields `t1` and `t2`. -/
structure est_timings where
  t1 : Nat
  t2 : Nat
  t3 : Nat
deriving DecidableEq, Repr

/-- `STD_TIMINGS_LEN`: the record has 8 standard-timing slots (spec §3). -/
def STD_TIMINGS_LEN : Nat := 8

/-- Modelled from the spec: `struct edid` (declared in `igt_edid.h`, not
under `src/`), following the 128-byte layout of spec §6.  Multi-byte scalar
fields that `lib/igt_edid.c` never writes (product code, serial, …) are
kept as single `Nat` fields holding their zeroed value. -/
structure edid where
  header : List Nat
  mfg_id : Nat × Nat
  prod_code : Nat
  serial : Nat
  mfg_week : Nat
  mfg_year : Nat
  version : Nat
  revision : Nat
  input : Nat
  width_cm : Nat
  height_cm : Nat
  gamma : Nat
  features : Nat
  chromaticity : List Nat
  established_timings : est_timings
  standard_timings : List std_timing
  detailed_timings : List detailed_timing
  extensions : Nat
  checksum : Nat
deriving DecidableEq, Repr

/-- `edid_set_mfg(edid, mfg)`: packs the three uppercase letters (given as
their byte values) at 5 bits per letter, `'@' = 64` being letter value 0:
`mfg_id[0] = (mfg[0]-'@') << 2 | (mfg[1]-'@') >> 3`,
`mfg_id[1] = (mfg[1]-'@') << 5 | (mfg[2]-'@')`; both stores are
`uint8_t`. -/
def edid_set_mfg (c0 c1 c2 : Nat) : Nat × Nat :=
  (((c0 - 64) <<< 2 ||| (c1 - 64) >>> 3) % 256,
   ((c1 - 64) <<< 5 ||| (c2 - 64)) % 256)

/-- `edid_set_gamma(edid, gamma)`: `edid->gamma = (gamma * 100) - 100`.
The C parameter is a `float`; it is modelled by its value in hundredths
(the only call passes `2.20`, i.e. `220`), so the store is
`gamma_x100 - 100` truncated to a byte. -/
def edid_set_gamma (gamma_x100 : Nat) : Nat :=
  (gamma_x100 - 100) % 256

/-- `edid_init(edid)`: zeroes the record, then writes the header magic, the
`"IGT"` manufacturer code, version 1.3, the fixed basic parameters, the
manufacture-year offset, the established-timings bitmap, standard-timing
slots 0–4, and marks slots 5–7 unused.  The year comes from
`localtime(time(NULL))->tm_year` (years since 1900), modelled as the
parameter `tm_year`; the `uint8_t` store of the C `int` `tm_year - 90` is
written over `Int`. -/
def edid_init (tm_year : Nat) : edid :=
  { header := edid_header
    mfg_id := edid_set_mfg 73 71 84
    prod_code := 0
    serial := 0
    mfg_week := 0
    mfg_year := (((tm_year : Int) - 90) % 256).toNat
    version := 1
    revision := 3
    input := 0x80
    width_cm := 52
    height_cm := 30
    gamma := edid_set_gamma 220
    features := 0x02
    chromaticity := List.replicate 10 0
    established_timings := { t1 := 0x21, t2 := 0x08, t3 := 0 }
    standard_timings :=
      [std_timing_set 1920 60 STD_TIMING_16_9,
       std_timing_set 1280 60 STD_TIMING_16_9,
       std_timing_set 1024 60 STD_TIMING_4_3,
       std_timing_set 800 60 STD_TIMING_4_3,
       std_timing_set 640 60 STD_TIMING_4_3,
       std_timing_unset, std_timing_unset, std_timing_unset]
    detailed_timings := List.replicate 4 detailed_timing_zero
    extensions := 0
    checksum := 0 }

/-! ## Helper lemmas -/

/-- A `uint8_t` running sum over a list equals the plain sum reduced
modulo 256. -/
theorem foldl_add_mod (l : List Nat) : ∀ s : Nat, s < 256 →
    l.foldl (fun a b => (a + b) % 256) s = (s + l.sum) % 256 := by
  induction l with
  | nil => intro s hs; simp [Nat.mod_eq_of_lt hs]
  | cons b t ih =>
    intro s hs
    have h2 : (s + b) % 256 < 256 := Nat.mod_lt _ (by norm_num)
    simp only [List.foldl_cons, List.sum_cons, ih _ h2]
    omega

/-- `edid_update_checksum` on a 128-byte record is the first 127 bytes
followed by the computed checksum byte. -/
theorem update_decomp (buf : List Nat) (h : buf.length = 128) :
    edid_update_checksum buf
      = buf.take 127 ++ [(256 - (buf.take 127).sum % 256) % 256] := by
  unfold edid_update_checksum
  rw [foldl_add_mod _ 0 (by norm_num)]
  rw [List.set_eq_take_cons_drop _ (by omega)]
  have : buf.drop 128 = [] := List.drop_eq_nil_of_le (by omega)
  simp [this]

/-- Packing a 2-bit value above a 6-bit value: the bitwise-or of
`a <<< 6` with `b < 64` is their sum. -/
theorem lor_shift6 : ∀ a, a < 4 → ∀ b, b < 64 → a <<< 6 ||| b = a * 64 + b := by
  decide

/-- On a byte, `>>> 6` is division by 64 and `&&& 63` is remainder
modulo 64. -/
theorem byte_ops : ∀ n, n < 256 → n >>> 6 = n / 64 ∧ n &&& 63 = n % 64 := by
  decide

/-- The packed aspect/refresh byte of `std_timing_set`, in arithmetic
form, for in-contract inputs. -/
theorem std_timing_set_vfreq_aspect (hsize vfreq aspect : Nat)
    (hv1 : 60 ≤ vfreq) (hv2 : vfreq ≤ 123) (ha : aspect < 4) :
    (std_timing_set hsize vfreq aspect).vfreq_aspect
      = aspect * 64 + (vfreq - 60) := by
  have hb : vfreq - 60 < 64 := by omega
  simp only [std_timing_set, lor_shift6 aspect ha _ hb]
  omega

/-- The payload written by a successful `detailed_timing_set_string`: the
source bytes, newline-terminated and zero-filled when short, truncated to
13 bytes when long. -/
theorem set_string_payload (type : detailed_non_pixel_type) (str : List Nat)
    (dt : detailed_timing) (h : detailed_timing_set_string type str = some dt) :
    dt.string_of = some (if str.length < 13
      then str ++ 10 :: List.replicate (12 - str.length) 0
      else str.take 13) := by
  have hset : str.length < 13 →
      (str.take 13 ++ List.replicate (13 - str.length) 0).set str.length 10
        = str ++ 10 :: List.replicate (12 - str.length) 0 := by
    intro hl
    have hrep : 13 - str.length = (12 - str.length) + 1 := by omega
    rw [List.take_of_length_le (by omega), hrep, List.replicate_succ,
      List.set_eq_take_cons_drop _ (by simp), List.take_left' rfl,
      List.drop_append 1]
    simp
  have hcop : ¬ str.length < 13 →
      str.take 13 ++ List.replicate (13 - str.length) 0 = str.take 13 := by
    intro hl
    have : 13 - str.length = 0 := by omega
    simp [this]
  cases type with
  | dummy => exact absurd h (by simp [detailed_timing_set_string])
  | monitor_range => exact absurd h (by simp [detailed_timing_set_string])
  | monitor_serial =>
    simp only [detailed_timing_set_string, Option.some.injEq] at h
    subst h
    by_cases hl : str.length < 13
    · simp only [detailed_timing.string_of, if_pos hl, hset hl]
    · simp only [detailed_timing.string_of, if_neg hl, hcop hl]
  | monitor_string =>
    simp only [detailed_timing_set_string, Option.some.injEq] at h
    subst h
    by_cases hl : str.length < 13
    · simp only [detailed_timing.string_of, if_pos hl, hset hl]
    · simp only [detailed_timing.string_of, if_neg hl, hcop hl]
  | monitor_name =>
    simp only [detailed_timing_set_string, Option.some.injEq] at h
    subst h
    by_cases hl : str.length < 13
    · simp only [detailed_timing.string_of, if_pos hl, hset hl]
    · simp only [detailed_timing.string_of, if_neg hl, hcop hl]

/-! ## Claim theorems -/

/-- C1: for every 128-byte record, `edid_update_checksum` sets the final
byte (offset 127) to `(256 - s) % 256`, where `s` is the sum of bytes 0
through 126 reduced modulo 256, so that afterwards the sum of all 128
bytes is congruent to 0 modulo 256. -/
theorem edid_update_checksum_sets_final_byte (buf : List Nat)
    (h : buf.length = 128) :
    (edid_update_checksum buf).getD 127 0
        = (256 - (buf.take 127).sum % 256) % 256
      ∧ (edid_update_checksum buf).sum % 256 = 0 := by
  have hd := update_decomp buf h
  have hlen : (buf.take 127).length = 127 := by simp [h]
  constructor
  · rw [hd, List.getD_eq_getElem?_getD, List.getElem?_append_right (by omega),
      hlen]
    simp
  · rw [hd, List.sum_append, List.sum_singleton]
    omega

/-- Witness for C1 at the all-zero record. -/
theorem edid_update_checksum_sets_final_byte_witness :
    (List.replicate 128 0).length = 128
      ∧ ((edid_update_checksum (List.replicate 128 0)).getD 127 0
            = (256 - ((List.replicate 128 0).take 127).sum % 256) % 256
          ∧ (edid_update_checksum (List.replicate 128 0)).sum % 256 = 0) :=
  ⟨by simp, edid_update_checksum_sets_final_byte _ (by simp)⟩

/-- C2: for every `hsize` that is a multiple of 8 in `[256, 2288]`, every
`vfreq` in `[60, 123]` and every 2-bit aspect code, the two bytes produced
by `std_timing_set` satisfy `(byte0 + 31) * 8 = hsize`,
`byte1 >>> 6 = aspect` and `(byte1 &&& 0x3F) + 60 = vfreq`: unpacking the
standard-timing bytes recovers `(hsize, vfreq, aspect)` exactly. -/
theorem std_timing_set_unpacks (hsize vfreq aspect : Nat)
    (h8 : hsize % 8 = 0) (hlo : 256 ≤ hsize) (hhi : hsize ≤ 2288)
    (hv1 : 60 ≤ vfreq) (hv2 : vfreq ≤ 123) (ha : aspect < 4) :
    ((std_timing_set hsize vfreq aspect).hsize + 31) * 8 = hsize
  ∧ (std_timing_set hsize vfreq aspect).vfreq_aspect >>> 6 = aspect
  ∧ ((std_timing_set hsize vfreq aspect).vfreq_aspect &&& 0x3F) + 60
      = vfreq := by
  have h1 := std_timing_set_vfreq_aspect hsize vfreq aspect hv1 hv2 ha
  have hlt : aspect * 64 + (vfreq - 60) < 256 := by omega
  refine ⟨?_, ?_, ?_⟩
  · simp only [std_timing_set]
    omega
  · rw [h1, (byte_ops _ hlt).1]
    omega
  · rw [h1, (byte_ops _ hlt).2]
    omega

/-- Witness for C2 at `(1920, 60, 3)`. -/
theorem std_timing_set_unpacks_witness :
    (1920 % 8 = 0 ∧ 256 ≤ 1920 ∧ 1920 ≤ 2288 ∧ 60 ≤ 60 ∧ 60 ≤ 123 ∧ 3 < 4)
      ∧ (((std_timing_set 1920 60 3).hsize + 31) * 8 = 1920
          ∧ (std_timing_set 1920 60 3).vfreq_aspect >>> 6 = 3
          ∧ ((std_timing_set 1920 60 3).vfreq_aspect &&& 0x3F) + 60 = 60) :=
  ⟨by decide,
   std_timing_set_unpacks 1920 60 3 (by decide) (by decide) (by decide)
     (by decide) (by decide) (by decide)⟩

/-- C3 counterexample: the valid input `hsize = 256` (a multiple of 8 in
`[256, 2288]`), `vfreq = 61` (in `[60, 123]`), `aspect = 0` (a 2-bit
code) encodes to exactly the all-`0x01` sentinel written by
`std_timing_unset`, so the sentinel is not distinguishable from every
valid encoding. -/
theorem std_timing_sentinel_collision :
    std_timing_set 256 61 0 = std_timing_unset
      ∧ 256 % 8 = 0 ∧ 256 ≤ 256 ∧ 256 ≤ 2288 ∧ 60 ≤ 61 ∧ 61 ≤ 123
      ∧ 0 < 4 := by
  decide

/-- C3 (amended): the 2-byte sentinel written by `std_timing_unset`
differs from the output of `std_timing_set` for every valid input (hsize a
multiple of 8 in `[256, 2288]`, vfreq in `[60, 123]`, 2-bit aspect code)
except the single input `(hsize, vfreq, aspect) = (256, 61, 0)`, whose
encoding coincides with the sentinel. -/
theorem std_timing_set_ne_sentinel (hsize vfreq aspect : Nat)
    (h8 : hsize % 8 = 0) (hlo : 256 ≤ hsize) (hhi : hsize ≤ 2288)
    (hv1 : 60 ≤ vfreq) (hv2 : vfreq ≤ 123) (ha : aspect < 4)
    (hne : ¬(hsize = 256 ∧ vfreq = 61 ∧ aspect = 0)) :
    std_timing_set hsize vfreq aspect ≠ std_timing_unset := by
  have h1 := std_timing_set_vfreq_aspect hsize vfreq aspect hv1 hv2 ha
  have h0 : (std_timing_set hsize vfreq aspect).hsize = hsize / 8 - 31 := by
    simp only [std_timing_set]
    omega
  intro heq
  have e1 : (std_timing_set hsize vfreq aspect).hsize = 1 := by rw [heq]; rfl
  have e2 : (std_timing_set hsize vfreq aspect).vfreq_aspect = 1 := by
    rw [heq]; rfl
  rw [h0] at e1
  rw [h1] at e2
  omega

/-- Witness for the amended C3 at `(1920, 60, 3)`. -/
theorem std_timing_set_ne_sentinel_witness :
    (1920 % 8 = 0 ∧ 256 ≤ 1920 ∧ 1920 ≤ 2288 ∧ 60 ≤ 60 ∧ 60 ≤ 123 ∧ 3 < 4
        ∧ ¬((1920 : Nat) = 256 ∧ (60 : Nat) = 61 ∧ (3 : Nat) = 0))
      ∧ std_timing_set 1920 60 3 ≠ std_timing_unset :=
  ⟨by decide,
   std_timing_set_ne_sentinel 1920 60 3 (by decide) (by decide) (by decide)
     (by decide) (by decide) (by decide) (by decide)⟩

/-- C4 counterexample: for the (assert-passing) mode with `clock = 0`,
`detailed_timing_set_mode` leaves both pixel-clock bytes zero, so it is
not the case that every mode yields a nonzero pixel-clock field. -/
theorem detailed_timing_set_mode_zero_clock :
    (detailed_timing_set_mode
        { clock := 0, hdisplay := 0, hsync_start := 0, hsync_end := 0,
          htotal := 0, vdisplay := 0, vsync_start := 0, vsync_end := 0,
          vtotal := 0, vrefresh := 0, flags := 0 } 0 0).pixel_clock
      = (0, 0) := by
  decide

/-- C4 (amended): an 18-byte detailed descriptor is a pixel-timing record
iff its pixel-clock field is nonzero: for every mode whose `clock / 10` is
nonzero modulo 2^16, `detailed_timing_set_mode` leaves at least one of the
two pixel-clock bytes nonzero (for `clock / 10 ≡ 0 (mod 2^16)`, e.g.
`clock < 10`, both bytes are zero), while for every input
`detailed_timing_set_monitor_range_mode` and (on its non-aborting paths)
`detailed_timing_set_string` set both pixel-clock bytes to zero. -/
theorem pixel_clock_tag_discriminates :
    (∀ (mode : drmModeModeInfo) (w h : Nat), (mode.clock / 10) % 65536 ≠ 0 →
        (detailed_timing_set_mode mode w h).pixel_clock ≠ (0, 0))
  ∧ (∀ mode : drmModeModeInfo,
        (detailed_timing_set_monitor_range_mode mode).pixel_clock = (0, 0))
  ∧ (∀ (type : detailed_non_pixel_type) (str : List Nat)
        (dt : detailed_timing),
        detailed_timing_set_string type str = some dt →
          dt.pixel_clock = (0, 0)) := by
  refine ⟨?_, ?_, ?_⟩
  · intro mode w h hne heq
    have hpc : (detailed_timing_set_mode mode w h).pixel_clock
        = ((mode.clock / 10) % 256, (mode.clock / 10) % 65536 / 256) := rfl
    rw [hpc, Prod.mk.injEq] at heq
    omega
  · intro mode
    rfl
  · intro type str dt h
    cases type with
    | dummy => exact absurd h (by simp [detailed_timing_set_string])
    | monitor_range => exact absurd h (by simp [detailed_timing_set_string])
    | monitor_serial =>
      simp only [detailed_timing_set_string, Option.some.injEq] at h
      subst h; rfl
    | monitor_string =>
      simp only [detailed_timing_set_string, Option.some.injEq] at h
      subst h; rfl
    | monitor_name =>
      simp only [detailed_timing_set_string, Option.some.injEq] at h
      subst h; rfl

/-- Witness for the amended C4: a 1920-kHz-clock mode has a nonzero
pixel-clock field. -/
theorem pixel_clock_tag_discriminates_witness :
    ((1920 : Nat) / 10 % 65536 ≠ 0
      ∧ (detailed_timing_set_mode
          { clock := 1920, hdisplay := 0, hsync_start := 0, hsync_end := 0,
            htotal := 0, vdisplay := 0, vsync_start := 0, vsync_end := 0,
            vtotal := 0, vrefresh := 0, flags := 0 } 0 0).pixel_clock
         ≠ (0, 0)) :=
  ⟨by decide, pixel_clock_tag_discriminates.1 _ 0 0 (by decide)⟩

/-- C5 counterexample: for the mode with `clock = 19` kHz, the 16-bit
little-endian pixel-clock value stored by `detailed_timing_set_mode` is 1
(truncating division by 10), not the nearest integer to 1.9, which is
`(19 + 5) / 10 = 2`. -/
theorem pixel_clock_not_rounded_to_nearest :
    (detailed_timing_set_mode
        { clock := 19, hdisplay := 0, hsync_start := 0, hsync_end := 0,
          htotal := 0, vdisplay := 0, vsync_start := 0, vsync_end := 0,
          vtotal := 0, vrefresh := 0, flags := 0 } 0 0).pixel_clock.1
      + 256 * (detailed_timing_set_mode
        { clock := 19, hdisplay := 0, hsync_start := 0, hsync_end := 0,
          htotal := 0, vdisplay := 0, vsync_start := 0, vsync_end := 0,
          vtotal := 0, vrefresh := 0, flags := 0 } 0 0).pixel_clock.2
      = 1
    ∧ (19 + 5) / 10 = 2 := by
  decide

/-- C5 (amended): for every mode, the 16-bit little-endian value formed by
the first two descriptor bytes written by `detailed_timing_set_mode`
equals the mode clock (in kHz) divided by 10 rounding down (truncating
integer division), reduced modulo 2^16. -/
theorem pixel_clock_truncated_le (mode : drmModeModeInfo) (w h : Nat) :
    (detailed_timing_set_mode mode w h).pixel_clock.1
      + 256 * (detailed_timing_set_mode mode w h).pixel_clock.2
      = (mode.clock / 10) % 65536 := by
  have hpc : (detailed_timing_set_mode mode w h).pixel_clock
      = ((mode.clock / 10) % 256, (mode.clock / 10) % 65536 / 256) := rfl
  rw [hpc]
  simp only
  omega

/-- C6 counterexample: for the mode with `clock = 10000` kHz,
`htotal = 100` and `vrefresh = 60`, the stored pixel-clock field is
`10000 / 10000 + 1 = 2`, while the ceiling of `clock / 10000` is
`(10000 + 9999) / 10000 = 1`: the field is not the ceiling. -/
theorem monitor_range_not_ceiling :
    (detailed_timing_set_monitor_range_mode
        { clock := 10000, hdisplay := 0, hsync_start := 0, hsync_end := 0,
          htotal := 100, vdisplay := 0, vsync_start := 0, vsync_end := 0,
          vtotal := 0, vrefresh := 60, flags := 0 }).range_of
      = some { min_vfreq := 59, max_vfreq := 61, min_hfreq_khz := 99,
               max_hfreq_khz := 101, pixel_clock_mhz := 2, flags := 0,
               pad := monitor_range_padding }
    ∧ (10000 + 9999) / 10000 = 1 := by
  decide

/-- C6 (amended): for every mode with nonzero `htotal` whose derived
values fit a byte without wraparound (`1 ≤ vrefresh ≤ 254`,
`1 ≤ clock / htotal ≤ 254`, `clock / 10000 + 1 ≤ 255`),
`detailed_timing_set_monitor_range_mode` sets the minimum and maximum
vertical refresh to `vrefresh ∓ 1`, the minimum and maximum horizontal
frequency in kHz to `clock / htotal ∓ 1` (integer division), and the
pixel-clock field to `clock / 10000 + 1` — one more than the rounded-down
tens-of-MHz value, which exceeds the ceiling of `clock / 10000` exactly
when `clock` is a multiple of 10000. -/
theorem monitor_range_fields (mode : drmModeModeInfo)
    (hnz : 0 < mode.htotal)
    (hv1 : 1 ≤ mode.vrefresh) (hv2 : mode.vrefresh + 1 ≤ 255)
    (hh1 : 1 ≤ mode.clock / mode.htotal)
    (hh2 : mode.clock / mode.htotal + 1 ≤ 255)
    (hc : mode.clock / 10000 + 1 ≤ 255) :
    (detailed_timing_set_monitor_range_mode mode).range_of = some
      { min_vfreq := mode.vrefresh - 1
        max_vfreq := mode.vrefresh + 1
        min_hfreq_khz := mode.clock / mode.htotal - 1
        max_hfreq_khz := mode.clock / mode.htotal + 1
        pixel_clock_mhz := mode.clock / 10000 + 1
        flags := 0
        pad := monitor_range_padding } := by
  simp only [detailed_timing_set_monitor_range_mode, detailed_timing.range_of,
    Option.some.injEq, detailed_data_monitor_range.mk.injEq]
  and_intros <;> first | omega | trivial

/-- Witness for the amended C6 at a 1080p-like mode
(`clock = 148500` kHz, `htotal = 2200`, `vrefresh = 60`). -/
theorem monitor_range_fields_witness :
    ((0 : Nat) < 2200 ∧ (1 : Nat) ≤ 60 ∧ (60 : Nat) + 1 ≤ 255
        ∧ 1 ≤ (148500 : Nat) / 2200 ∧ (148500 : Nat) / 2200 + 1 ≤ 255
        ∧ (148500 : Nat) / 10000 + 1 ≤ 255)
      ∧ (detailed_timing_set_monitor_range_mode
          { clock := 148500, hdisplay := 1920, hsync_start := 2008,
            hsync_end := 2052, htotal := 2200, vdisplay := 1080,
            vsync_start := 1084, vsync_end := 1089, vtotal := 1125,
            vrefresh := 60, flags := 0 }).range_of = some
          { min_vfreq := 59, max_vfreq := 61, min_hfreq_khz := 66,
            max_hfreq_khz := 68, pixel_clock_mhz := 15, flags := 0,
            pad := monitor_range_padding } := by
  refine ⟨by decide, ?_⟩
  have h := monitor_range_fields
    { clock := 148500, hdisplay := 1920, hsync_start := 2008,
      hsync_end := 2052, htotal := 2200, vdisplay := 1080,
      vsync_start := 1084, vsync_end := 1089, vtotal := 1125,
      vrefresh := 60, flags := 0 }
    (by decide) (by decide) (by decide) (by decide) (by decide) (by decide)
  simpa using h

/-- C7: for every source string and every valid string subtype (the
non-aborting inputs of `detailed_timing_set_string`), the function copies
`min (length str) 13` bytes of the string into the 13-byte payload; when
`length str < 13` the payload byte at index `length str` is the newline
character, and when `13 ≤ length str` exactly 13 bytes are copied with no
terminator appended. -/
theorem set_string_truncation (type : detailed_non_pixel_type)
    (str : List Nat) (dt : detailed_timing)
    (h : detailed_timing_set_string type str = some dt) :
    ∃ payload, dt.string_of = some payload
      ∧ payload.length = 13
      ∧ payload.take (min str.length 13) = str.take (min str.length 13)
      ∧ (str.length < 13 → payload.getD str.length 0 = 10)
      ∧ (13 ≤ str.length → payload = str.take 13) := by
  refine ⟨_, set_string_payload type str dt h, ?_, ?_, ?_, ?_⟩
  · by_cases hl : str.length < 13
    · rw [if_pos hl]
      simp [List.length_replicate]
      omega
    · rw [if_neg hl]
      simp [List.length_take]
      omega
  · by_cases hl : str.length < 13
    · rw [if_pos hl, Nat.min_eq_left (by omega), List.take_left' rfl,
        List.take_length]
    · rw [if_neg hl, Nat.min_eq_right (by omega), List.take_take]
      simp
  · intro hl
    rw [if_pos hl, List.getD_eq_getElem?_getD,
      List.getElem?_append_right (by omega)]
    simp
  · intro hl
    rw [if_neg (by omega)]

/-- Witness for C7: encoding the 3-byte monitor name `"IGT"` copies the 3
bytes, sets payload byte 3 to the newline and zero-fills the rest. -/
theorem set_string_truncation_witness :
    detailed_timing_set_string .monitor_name [73, 71, 84]
        = some { pixel_clock := (0, 0)
                 data := .other_data
                   { type := .monitor_name
                     data := .string
                       { str := [73, 71, 84, 10, 0, 0, 0, 0, 0, 0, 0, 0,
                                 0] } } }
      ∧ (∃ payload,
          detailed_timing.string_of
              { pixel_clock := (0, 0)
                data := .other_data
                  { type := .monitor_name
                    data := .string
                      { str := [73, 71, 84, 10, 0, 0, 0, 0, 0, 0, 0, 0,
                                0] } } }
            = some payload
          ∧ payload.length = 13
          ∧ payload.take (min (List.length [73, 71, 84]) 13)
              = List.take (min (List.length [73, 71, 84]) 13) [73, 71, 84]
          ∧ (List.length [73, 71, 84] < 13 →
              payload.getD (List.length [73, 71, 84]) 0 = 10)
          ∧ (13 ≤ List.length [73, 71, 84] →
              payload = List.take 13 [73, 71, 84])) :=
  ⟨by decide, set_string_truncation .monitor_name [73, 71, 84] _ (by decide)⟩

/-- C8: `edid_init` (for any manufacture year) writes the fixed 8-byte
header `{0x00, 0xFF, 0xFF, 0xFF, 0xFF, 0xFF, 0xFF, 0x00}`, fills
standard-timing slots 0–4 with valid (non-sentinel) encodings of
1920×1080 16:9, 1280×720 16:9, 1024×768 4:3, 800×600 4:3 and 640×480 4:3,
each at 60 Hz, and fills slots 5–7 with the all-`0x01` sentinel. -/
theorem edid_init_defaults (tm_year : Nat) :
    (edid_init tm_year).header
        = [0x00, 0xff, 0xff, 0xff, 0xff, 0xff, 0xff, 0x00]
      ∧ (edid_init tm_year).standard_timings
        = [std_timing_set 1920 60 STD_TIMING_16_9,
           std_timing_set 1280 60 STD_TIMING_16_9,
           std_timing_set 1024 60 STD_TIMING_4_3,
           std_timing_set 800 60 STD_TIMING_4_3,
           std_timing_set 640 60 STD_TIMING_4_3,
           std_timing_unset, std_timing_unset, std_timing_unset]
      ∧ std_timing_set 1920 60 STD_TIMING_16_9 ≠ std_timing_unset
      ∧ std_timing_set 1280 60 STD_TIMING_16_9 ≠ std_timing_unset
      ∧ std_timing_set 1024 60 STD_TIMING_4_3 ≠ std_timing_unset
      ∧ std_timing_set 800 60 STD_TIMING_4_3 ≠ std_timing_unset
      ∧ std_timing_set 640 60 STD_TIMING_4_3 ≠ std_timing_unset :=
  ⟨rfl, rfl, by decide, by decide, by decide, by decide, by decide⟩

/-- C9: `edid_update_checksum` is idempotent: a second call on the
unmodified 128-byte record leaves it unchanged. -/
theorem edid_update_checksum_idempotent (buf : List Nat)
    (h : buf.length = 128) :
    edid_update_checksum (edid_update_checksum buf)
      = edid_update_checksum buf := by
  have hd := update_decomp buf h
  have hlen : (edid_update_checksum buf).length = 128 := by
    unfold edid_update_checksum
    simp [h]
  have hlenT : (buf.take 127).length = 127 := by simp [h]
  have htake : (edid_update_checksum buf).take 127 = buf.take 127 := by
    rw [hd, List.take_left' hlenT]
  rw [update_decomp _ hlen, htake, ← hd]

/-- Witness for C9 at the all-zero record. -/
theorem edid_update_checksum_idempotent_witness :
    (List.replicate 128 0).length = 128
      ∧ edid_update_checksum (edid_update_checksum (List.replicate 128 0))
        = edid_update_checksum (List.replicate 128 0) :=
  ⟨by simp, edid_update_checksum_idempotent _ (by simp)⟩

/-- C10: on a 128-byte record, `edid_update_checksum` writes only the
checksum byte at offset 127: every byte at offsets 0 through 126 is
unchanged, and the length of the record is unchanged. -/
theorem edid_update_checksum_frame (buf : List Nat) (i : Nat)
    (h : buf.length = 128) (hi : i < 127) :
    (edid_update_checksum buf).getD i 0 = buf.getD i 0
      ∧ (edid_update_checksum buf).length = 128 := by
  unfold edid_update_checksum
  constructor
  · rw [List.getD_eq_getElem?_getD, List.getD_eq_getElem?_getD,
      List.getElem?_set_ne (by omega)]
  · simp [h]

/-- Witness for C10 at the all-one record and offset 5. -/
theorem edid_update_checksum_frame_witness :
    ((List.replicate 128 1).length = 128 ∧ 5 < 127)
      ∧ ((edid_update_checksum (List.replicate 128 1)).getD 5 0
            = (List.replicate 128 1).getD 5 0
          ∧ (edid_update_checksum (List.replicate 128 1)).length = 128) :=
  ⟨by simp, edid_update_checksum_frame _ 5 (by simp) (by simp)⟩
